import Mathlib

/- Verification development for gpkg2osm (src/cmd/main.go): a shallow embedding
of layer validation, column discovery, tag resolution, GeoPackage geometry blob
parsing and the per-feature conversion loop, followed by theorems about the
behaviour of these functions. Machine bytes are modelled as Nat values below
256; fallible Go code is modelled with explicit result types, and a Go runtime
index or slice out-of-range fault is modelled as an explicit outcome. -/

namespace Gpkg2Osm

/-- A flat JSON scalar value as stored in an osm_tags object or a tag column
(src/cmd/main.go stores row tags as map from string to any). -/
inductive JVal
  | null
  | num (n : Int)
  | str (s : String)
  | bool (b : Bool)
deriving DecidableEq

/-- A flat JSON object of OSM tags, as an ordered association list (SQLite JSON
objects and Go JSON decoding both expose an object as key-value pairs). -/
abbrev TagMap := List (String × JVal)

/-- Embeds the ExportLayer struct (src/cmd/main.go:64-73). sql.NullBool fields
are modelled as Option Bool, int32 as Int. -/
structure ExportLayer where
  Name : String
  Tags : List String
  OSMJsonField : Bool
  GeometryField : String
  GeometryType : String
  SRS : Int
  Z : Option Bool
  M : Option Bool
deriving DecidableEq

/-- Embeds the keys of the valid_geoms map (src/cmd/main.go:54-61): the
geometry type names the converter allows. Only key membership is ever used of
the Go map, so the key list is the faithful embedding. -/
def valid_geoms : List String :=
  ["MULTIPOLYGON", "POLYGON", "MULTILINESTRING", "LINESTRING", "POINT"]

/-- Embeds ExportLayer.Validate (src/cmd/main.go:100-111): some message models
a returned error, none models a nil error (an exportable layer). -/
def ExportLayer.Validate (l : ExportLayer) : Option String :=
  if !l.OSMJsonField && l.Tags.isEmpty then some "no OSM tags"
  else if l.SRS != 4326 then some "invalid SRS, must be EPSG:4326"
  else if !(valid_geoms.contains l.GeometryType) then some "invalid geometry type"
  else none

/-- One row of the gpkg_data_columns query in getGeoPackageLayers
(src/cmd/main.go:326-333): table name, column name, description, mime type. -/
structure ColumnRow where
  table : String
  col : String
  desc : String
  mime : String

/-- Whether the first list is an initial segment of the second. -/
def charSeqStartsWith : List Char → List Char → Bool
  | [], _ => true
  | _ :: _, [] => false
  | a :: as, b :: bs => a == b && charSeqStartsWith as bs

/-- Whether the first list occurs as a contiguous run inside the second,
embedding Go strings.Contains on the underlying characters. -/
def charSeqContains (needle : List Char) : List Char → Bool
  | [] => needle.isEmpty
  | b :: bs => charSeqStartsWith needle (b :: bs) || charSeqContains needle bs

/-- Character-wise lower-casing of a string, embedding Go strings.ToLower
(Char.toLower agrees with the Go function on the ASCII range, which covers the
fixed needle below). -/
def lowerStr (s : String) : String := String.mk (s.data.map Char.toLower)

/-- Embeds the tag-column test of getGeoPackageLayers (src/cmd/main.go:348):
strings.Contains applied to the lower-cased description and the needle. -/
def containsOsmTag (desc : String) : Bool :=
  charSeqContains ("osm tag").data (lowerStr desc).data

/-- Embeds the per-column body of the gpkg_data_columns loop in
getGeoPackageLayers (src/cmd/main.go:343-350): an osm_tags column with JSON
mime type sets the OSMJsonField flag and is skipped (continue); otherwise a
column whose description contains the needle case-insensitively is appended to
the named tag columns. -/
def processColumn (l : ExportLayer) (c : ColumnRow) : ExportLayer :=
  if c.col == "osm_tags" && c.mime == "application/json" then
    { l with OSMJsonField := true }
  else if containsOsmTag c.desc then
    { l with Tags := l.Tags ++ [c.col] }
  else l

/-- Removes every pair with the given key from a JSON object. -/
def removeKey (k : String) (o : TagMap) : TagMap :=
  o.filter (fun p => p.1 != k)

/-- Sets a key in a JSON object: overwrites in place when present, appends
otherwise (the order SQLite json_patch produces). -/
def setKey (k : String) (v : JVal) (o : TagMap) : TagMap :=
  if o.any (fun p => p.1 == k) then
    o.map (fun p => if p.1 == k then (k, v) else p)
  else o ++ [(k, v)]

/-- Models SQLite json_patch (RFC-7396 merge patch) on flat objects, the shape
the query of src/cmd/main.go:89 applies it to: a null patch entry deletes the
key, any other entry sets it. -/
def jsonPatch (target : TagMap) : TagMap → TagMap
  | [] => target
  | (k, JVal.null) :: rest => jsonPatch (removeKey k target) rest
  | (k, v) :: rest => jsonPatch (setKey k v target) rest

/-- Models the null filter of the query (src/cmd/main.go:93-95): json_each
with WHERE value IS NOT NULL regrouped by json_group_object. -/
def removeNulls (o : TagMap) : TagMap :=
  o.filter (fun p => p.2 != JVal.null)

/-- Models json_object over the named tag columns (src/cmd/main.go:82-86): each
column name paired with its value in the row (an SQL NULL cell becomes a JSON
null). -/
def namedObject (tags : List String) (row : String → JVal) : TagMap :=
  tags.map (fun t => (t, row t))

/-- Embeds the tag-resolution semantics of the SQL built by ExportLayer.Query
(src/cmd/main.go:76-97), with the SQLite builtins json_object, json_patch and
the json_each null filter modelled by the functions above. When the layer has
the JSON field and no named tag columns the query selects the raw osm_tags
object (src/cmd/main.go:78-80, no null filter); otherwise it builds json_object
over the named columns, applies json_patch with osm_tags when the JSON field
exists, and removes null-valued entries. -/
def resolvedTags (l : ExportLayer) (row : String → JVal) (osmTags : TagMap) : TagMap :=
  if l.OSMJsonField && l.Tags.isEmpty then osmTags
  else
    removeNulls (if l.OSMJsonField then jsonPatch (namedObject l.Tags row) osmTags
                 else namedObject l.Tags row)

/-- Written from the words of the spec, section 4.1: the resolved mapping is
the structural merge-patch of the named-column mapping with the JSON tag field,
with all null-valued entries removed. Stated separately from resolvedTags so
the two can be compared. -/
def specResolve (named : TagMap) (json : TagMap) : TagMap :=
  removeNulls (jsonPatch named json)

/-- The geometry tree (go-geom values as used by the converter). Coordinates
are opaque to the conversion logic under src/, which never inspects them, so
they are carried as Int pairs. -/
inductive Geom
  | point (x y : Int)
  | multiPoint (pts : List (Int × Int))
  | lineString (pts : List (Int × Int))
  | multiLineString (lines : List (List (Int × Int)))
  | polygon (rings : List (List (Int × Int)))
  | multiPolygon (polys : List (List (List (Int × Int))))
deriving DecidableEq

/-- An OSM primitive as the osm-go entity package can emit it: node, way or
relation, each with an identifier and tags. A relation member is a role paired
with a referenced identifier. The conversion code under src/ only ever builds
the way form (entity.NewWay). -/
inductive OsmEntity
  | node (id : Nat) (x y : Int) (tags : TagMap)
  | way (id : Nat) (tags : TagMap) (g : Geom)
  | relation (id : Nat) (tags : TagMap) (members : List (String × Nat))
deriving DecidableEq

/-- Whether the primitive is a node. -/
def isNode : OsmEntity → Bool
  | OsmEntity.node .. => true
  | _ => false

/-- Whether the primitive is a way. -/
def isWay : OsmEntity → Bool
  | OsmEntity.way .. => true
  | _ => false

/-- Whether the primitive is a relation. -/
def isRelation : OsmEntity → Bool
  | OsmEntity.relation .. => true
  | _ => false

/-- The identifier carried by a primitive. -/
def entityId : OsmEntity → Nat
  | OsmEntity.node id .. => id
  | OsmEntity.way id .. => id
  | OsmEntity.relation id .. => id

/-- Embeds the per-feature body of the conversion loop in main
(src/cmd/main.go:221-234): only MultiLineString, MultiPolygon, LineString and
Polygon geometries fall into the switch case, and each such feature produces a
single way built as entity.NewWay(1) carrying the feature tags and geometry.
Every other geometry kind produces nothing. -/
def convertFeature (g : Geom) (tags : TagMap) : List OsmEntity :=
  match g with
  | Geom.multiLineString _ => [OsmEntity.way 1 tags g]
  | Geom.multiPolygon _ => [OsmEntity.way 1 tags g]
  | Geom.lineString _ => [OsmEntity.way 1 tags g]
  | Geom.polygon _ => [OsmEntity.way 1 tags g]
  | _ => []

/-- The entities the conversion loop writes for a list of features, in order
(src/cmd/main.go:221-234). -/
def convertRun : List (Geom × TagMap) → List OsmEntity
  | [] => []
  | (g, t) :: rest => convertFeature g t ++ convertRun rest

/-- Embeds the Feature struct (src/cmd/main.go:114-118) without the layer back
reference, which AppendToOSM never reads. -/
structure Feature where
  FTags : TagMap
  G : Geom

/-- Embeds Feature.AppendToOSM (src/cmd/main.go:121-126): the type switch has
an empty body, so the function changes nothing and returns a nil error
whatever the geometry is. The pair is the resulting file contents and the
returned error. -/
def Feature.AppendToOSM (f : Feature) (file : List OsmEntity) :
    List OsmEntity × Option String :=
  match f.G with
  | _ => (file, none)

/-- Outcome of parseGpkgGeom: a Go runtime index or slice out-of-range fault,
the bad-header error, the invalid-envelope error carrying the indicator, or
success handing the remaining bytes to wkb.Unmarshal (the external WKB decoder,
the boundary of the embedded code). -/
inductive GpkgResult
  | outOfRange
  | headerErr
  | envErr (ind : Nat)
  | ok (rest : List Nat)
deriving DecidableEq

/-- Embeds the final slice data[8+env_size:] of parseGpkgGeom
(src/cmd/main.go:384): in Go the slice is legal exactly when the start index
is at most the length, anything larger faults. -/
def gpkgSlice (data : List Nat) (n : Nat) : GpkgResult :=
  if n ≤ data.length then GpkgResult.ok (data.drop n) else GpkgResult.outOfRange

/-- Embeds the envelope switch of parseGpkgGeom (src/cmd/main.go:371-384):
reads the flags byte data[3] (a fault when the blob is shorter), maps the
3-bit indicator to an envelope size, and slices off header plus envelope. -/
def gpkgEnvelope (data : List Nat) : GpkgResult :=
  match data.get? 3 with
  | none => GpkgResult.outOfRange
  | some b3 =>
    let ind := (b3 >>> 1) &&& 7
    if ind == 1 then gpkgSlice data (8 + 32)
    else if ind == 2 || ind == 3 then gpkgSlice data (8 + 48)
    else if ind == 4 then gpkgSlice data (8 + 64)
    else GpkgResult.envErr ind

/-- Embeds parseGpkgGeom (src/cmd/main.go:364-385). The header test is the Go
condition data[0] != 71 && data[1] != 80 (ASCII G and P) with Go left-to-right
evaluation and short-circuiting: data[1] is only read when data[0] differs from
71, and reading past the end of the blob is a fault. -/
def parseGpkgGeom (data : List Nat) : GpkgResult :=
  match data.get? 0 with
  | none => GpkgResult.outOfRange
  | some b0 =>
    if b0 != 71 then
      match data.get? 1 with
      | none => GpkgResult.outOfRange
      | some b1 =>
        if b1 != 80 then GpkgResult.headerErr else gpkgEnvelope data
    else gpkgEnvelope data

/-- A MULTIPOINT layer with SRS 4326 and a JSON tag source: exportable by the
documentation, rejected by ExportLayer.Validate. -/
def mpLayer : ExportLayer :=
  { Name := "places", Tags := [], OSMJsonField := true, GeometryField := "geom",
    GeometryType := "MULTIPOINT", SRS := 4326, Z := none, M := none }

/-- A layer whose geometry type is spelled in lower case. -/
def lowerPolyLayer : ExportLayer :=
  { Name := "parks", Tags := ["name"], OSMJsonField := false, GeometryField := "geom",
    GeometryType := "polygon", SRS := 4326, Z := none, M := none }

/-- A layer with a JSON tag field and no named tag columns. -/
def jsonOnlyLayer : ExportLayer :=
  { Name := "pois", Tags := [], OSMJsonField := true, GeometryField := "geom",
    GeometryType := "POINT", SRS := 4326, Z := none, M := none }

/-- A layer with named tag columns a and b and a JSON tag field, matching the
worked example of the spec. -/
def namedColsLayer : ExportLayer :=
  { Name := "roads", Tags := ["a", "b"], OSMJsonField := true, GeometryField := "geom",
    GeometryType := "LINESTRING", SRS := 4326, Z := none, M := none }

/-- The row of the worked example: column a holds 1, column b holds 2. -/
def exRow : String → JVal :=
  fun s => if s == "a" then JVal.num 1 else if s == "b" then JVal.num 2 else JVal.null

/-- The JSON tag field of the worked example: b is null, c is 3. -/
def exPatch : TagMap := [("b", JVal.null), ("c", JVal.num 3)]

/-- Tags of the first demonstration feature. -/
def tagsA : TagMap := [("name", JVal.str "first")]

/-- Tags of the second demonstration feature. -/
def tagsB : TagMap := [("name", JVal.str "second")]

/-- A polygon with one outer ring and one inner ring (a hole). -/
def holedPolygon : Geom :=
  Geom.polygon [[(0, 0), (4, 0), (4, 4), (0, 4), (0, 0)],
                [(1, 1), (2, 1), (2, 2), (1, 2), (1, 1)]]

/-- Two LineString features with distinct tags and distinct vertices. -/
def demoLines : List (Geom × TagMap) :=
  [(Geom.lineString [(0, 0), (1, 1)], tagsA),
   (Geom.lineString [(2, 2), (3, 3)], tagsB)]

/-- Claim C1: the claim says two bare-point features at coordinates with the
same 7-decimal key yield exactly one node whose tags are those of the first
feature. The conversion loop emits nothing for point geometries (its switch
covers only line and polygon kinds) and Feature.AppendToOSM adds nothing, so
two coincident bare points produce zero output entities and zero nodes. -/
theorem point_features_produce_no_nodes :
    convertRun [(Geom.point 5 5, tagsA), (Geom.point 5 5, tagsB)] = []
    ∧ Feature.AppendToOSM { FTags := tagsA, G := Geom.point 5 5 } [] = ([], none) :=
  ⟨rfl, rfl⟩

/-- Claim C2: the claim says a polygon with one inner ring yields two ways and
one multipolygon relation with outer and inner members. The conversion loop
emits a single way (built as entity.NewWay(1)) carrying the feature tags and
no relation for any polygon, holes included. -/
theorem holed_polygon_single_way_no_relation :
    convertRun [(holedPolygon, tagsA)] = [OsmEntity.way 1 tagsA holedPolygon]
    ∧ ((convertRun [(holedPolygon, tagsA)]).filter isWay).length = 1
    ∧ ((convertRun [(holedPolygon, tagsA)]).filter isRelation).length = 0 :=
  ⟨rfl, rfl, rfl⟩

/-- Claim C3: the claim says identifiers are unique per primitive kind,
strictly increasing from 1. Converting two distinct LineString features
produces two distinct way primitives that both carry identifier 1 (the literal
argument of entity.NewWay in the loop), so identifiers are not unique. -/
theorem way_identifiers_duplicated :
    convertRun demoLines =
      [OsmEntity.way 1 tagsA (Geom.lineString [(0, 0), (1, 1)]),
       OsmEntity.way 1 tagsB (Geom.lineString [(2, 2), (3, 3)])]
    ∧ (convertRun demoLines).map entityId = [1, 1] :=
  ⟨rfl, rfl⟩

/-- Claim C4: the claim says envelope indicator 0 means a zero-byte envelope
and decode fails exactly for indicators outside the set 0 to 4. On a blob with
indicator 0 the switch falls into the error default, while indicator 4 consumes
a 64-byte envelope and indicator 5 errors as the claim says. -/
theorem envelope_indicator_zero_is_rejected :
    parseGpkgGeom [71, 80, 0, 0, 0, 0, 0, 0] = GpkgResult.envErr 0
    ∧ parseGpkgGeom (71 :: 80 :: 0 :: 8 :: List.replicate 68 0) = GpkgResult.ok []
    ∧ parseGpkgGeom (71 :: 80 :: 0 :: 10 :: List.replicate 68 0) = GpkgResult.envErr 5 := by
  refine ⟨rfl, ?_, ?_⟩ <;> decide

/-- Claim C5: the claim says a layer is exportable iff SRS is 4326, the
geometry type is one of six kinds including MULTIPOINT, and a tag source
exists. A MULTIPOINT layer with SRS 4326 and a JSON tag source is rejected,
because the valid_geoms table has no MULTIPOINT entry. -/
theorem multipoint_layer_fails_validation :
    ExportLayer.Validate mpLayer = some "invalid geometry type" := by decide

/-- Claim C6 (counterexample): the claim says the resolved mapping has all
null-valued entries removed in every configuration, and that a layer with a
JSON field and no named columns gets the JSON object with nulls removed. For
such a layer the query returns the raw osm_tags object, so a null-valued entry
survives and the result differs from the merge-patch the claim describes. -/
theorem json_only_branch_keeps_nulls :
    resolvedTags jsonOnlyLayer exRow exPatch = exPatch
    ∧ resolvedTags jsonOnlyLayer exRow exPatch ≠
        specResolve (namedObject jsonOnlyLayer.Tags exRow) exPatch :=
  ⟨rfl, by decide⟩

/-- Claim C6 (amended): whenever the layer has a named tag column (or has no
JSON field), the resolved mapping is exactly the structural merge-patch of the
named-column mapping with the JSON tag field (an absent field patches with the
empty object) with null-valued entries removed; a layer with a JSON field and
no named columns gets the raw JSON object unchanged. On the worked example the
merge-patch gives a maps-to 1 and c maps-to 3 with b removed. -/
theorem resolvedTags_merge_patch :
    (∀ (l : ExportLayer) (row : String → JVal) (json : TagMap),
      resolvedTags l row json =
        if l.OSMJsonField && l.Tags.isEmpty then json
        else specResolve (namedObject l.Tags row)
               (if l.OSMJsonField then json else []))
    ∧ resolvedTags namedColsLayer exRow exPatch = [("a", JVal.num 1), ("c", JVal.num 3)] := by
  constructor
  · intro l row json
    cases h : l.OSMJsonField <;> simp [resolvedTags, specResolve, h, jsonPatch]
  · decide

/-- Claim C7: the claim says decode returns the header error for every blob
whose first two bytes are not G then P, and passes the check otherwise. The Go
condition joins the two byte tests with a conjunction, so a blob starting G X
or X P passes the header check (and here decodes fully), while only a blob
whose both bytes differ is rejected. -/
theorem header_check_accepts_wrong_magic :
    parseGpkgGeom (71 :: 88 :: 0 :: 2 :: List.replicate 36 0) = GpkgResult.ok []
    ∧ parseGpkgGeom (88 :: 80 :: 0 :: 2 :: List.replicate 36 0) = GpkgResult.ok []
    ∧ parseGpkgGeom (88 :: 79 :: 0 :: 2 :: List.replicate 36 0) = GpkgResult.headerErr := by
  refine ⟨?_, ?_, ?_⟩ <;> decide

/-- Claim C8: the claim says a blob shorter than header plus envelope produces
a TruncatedBlob error rather than an out-of-bounds access. parseGpkgGeom has no
truncation check: the empty blob faults reading data[0], a one-byte blob faults
reading data[3], and a four-byte blob with indicator 1 faults slicing 40 bytes
off a 4-byte blob. -/
theorem truncated_blob_out_of_range :
    parseGpkgGeom [] = GpkgResult.outOfRange
    ∧ parseGpkgGeom [71] = GpkgResult.outOfRange
    ∧ parseGpkgGeom [71, 80, 0, 2] = GpkgResult.outOfRange :=
  ⟨rfl, rfl, rfl⟩

/-- Claim C9: geometry-type acceptance is exact, case-sensitive matching
against the five upper-case names in valid_geoms: every layer whose geometry
type string is not one of them fails validation. -/
theorem unknown_geometry_type_fails_validation (l : ExportLayer)
    (h : ¬ l.GeometryType ∈ valid_geoms) :
    (ExportLayer.Validate l).isSome = true := by
  have hc : valid_geoms.contains l.GeometryType = false := by
    cases hcon : valid_geoms.contains l.GeometryType
    · rfl
    · exact absurd (List.mem_of_elem_eq_true hcon) h
  unfold ExportLayer.Validate
  split
  · rfl
  · split
    · rfl
    · simp [hc]
      exact h

/-- Witness for claim C9: a lower-case spelling of POLYGON is not in
valid_geoms and the layer fails validation. -/
theorem lowercase_polygon_fails_validation :
    (ExportLayer.Validate lowerPolyLayer).isSome = true :=
  unknown_geometry_type_fails_validation lowerPolyLayer (by decide)

/-- Claim C10: a data column sets the JSON-tag-field flag exactly when its
name is osm_tags and its mime type is application/json; such a column is never
appended to the named tag columns (the loop continues past it), while any
other column, an osm_tags column with a different mime type included, is
appended exactly when its description contains the needle case-insensitively
and leaves the flag unchanged. -/
theorem column_discovery_flag_and_tags (l : ExportLayer) (c : ColumnRow) :
    (processColumn l c).OSMJsonField
      = (l.OSMJsonField || (c.col == "osm_tags" && c.mime == "application/json"))
    ∧ (processColumn l c).Tags
      = (if c.col == "osm_tags" && c.mime == "application/json" then l.Tags
         else if containsOsmTag c.desc then l.Tags ++ [c.col] else l.Tags) := by
  cases h1 : (c.col == "osm_tags" && c.mime == "application/json") <;>
    cases h2 : containsOsmTag c.desc <;>
      simp [processColumn, h1, h2]

end Gpkg2Osm
